import Mathlib

/-!
Shallow embedding of the pyopenvidu client library (files
`pyopenvidu/openvidu.py`, `pyopenvidu/openvidurecording.py`,
`pyopenvidu/openvidusubscriber.py`, `pyopenvidu/exceptions.py`).

Modelling conventions:
* The shared `requests` transport session (`self._session`) is modelled by
  `Transport`; only its TLS-verification flag is manipulated by the code
  under verification, so only that field is kept (credentials, headers and
  timeout are configured once and never read or written again by this code).
* HTTP interaction is modelled by passing the server's `Response` for the
  single request an operation may issue.  Each state-changing operation
  returns a `Step`: the Python return value or raised exception, the state
  of the mutated object after the call, and whether the network request was
  actually issued (Python raises the fail-fast validity error before the
  request is made).
* Python dictionaries (insertion ordered, last write wins) are modelled as
  association lists via `dictInsert` / `dictLookup`.
* JSON payloads are modelled by structures holding exactly the keys the
  Python code reads; the remainder of a session listing entry is kept as an
  opaque `rest` component so that payload (in)equality is faithful.
* `requests.Response.raise_for_status` raises exactly when
  `400 <= status_code < 600`.
* `datetime.utcfromtimestamp(createdAt / 1000.0)` is an injective conversion
  of the raw millisecond timestamp; `created_at` keeps the raw value.
-/

namespace PyOpenVidu

/-- The shared transport session (`requests_toolbelt` `BaseUrlSession`).
Only the TLS-verification flag `verify` is read or written by the code under
verification. -/
structure Transport where
  verify : Bool
deriving DecidableEq, Repr, Inhabited

/-- The exception taxonomy of `pyopenvidu/exceptions.py`, plus the generic
`requests.HTTPError` raised by `raise_for_status` (carrying the status). -/
inductive OVError where
  | sessionDoesNotExist
  | sessionExists
  | recordingDoesNotExist
  | recordingNotStopped
  | recordingNotEnabled
  | recordingNotStarted
  | valueError
  | httpError (status : Nat)
deriving DecidableEq, Repr

/-- An HTTP response: the status code and the parsed JSON body (the body is
only inspected by the Python code after `raise_for_status` succeeds). -/
structure Response (α : Type) where
  status : Nat
  body : α
deriving DecidableEq, Repr

/-- `raise_for_status` raises exactly for client and server error codes. -/
def errStatus (status : Nat) : Prop := 400 ≤ status ∧ status < 600

instance (status : Nat) : Decidable (errStatus status) := by
  unfold errStatus; infer_instance

/-- Outcome of one Python method call: the returned value or raised
exception, the state of the object after the call, and whether the method
issued its network request. -/
structure Step (σ : Type) (α : Type) where
  result : Except OVError α
  state : σ
  requested : Bool

/-- Lookup in a Python dict modelled as an association list. -/
def dictLookup {α : Type} (k : String) : List (String × α) → Option α
  | [] => none
  | (k', v) :: rest => if k' = k then some v else dictLookup k rest

/-- Insertion into a Python dict: replaces the value in place if the key is
present, otherwise appends (insertion order). -/
def dictInsert {α : Type} (k : String) (v : α) : List (String × α) → List (String × α)
  | [] => [(k, v)]
  | (k', v') :: rest =>
    if k' = k then (k, v) :: rest else (k', v') :: dictInsert k v rest

/-- One entry of the `GET sessions` listing: the Python code reads only the
key `'id'`; everything else in the JSON object is the opaque `rest`, kept so
that equality of payloads is equality of full JSON objects. -/
structure SessionData where
  id : String
  rest : String
deriving DecidableEq, Repr, Inhabited

/-- Modelled from the spec: `openvidusession.py` is not part of the sources
under verification (only its callers in `openvidu.py` are).  Per the spec, a
Session is built from one listing entry, is identified by its server-assigned
id, holds the data it was built from, and carries a boolean "valid" flag that
starts true. -/
structure OpenViduSession where
  id : String
  data : SessionData
  is_valid : Bool
deriving DecidableEq, Repr

/-- Modelled from the spec: constructing a Session from one listing entry. -/
def OpenViduSession.init (data : SessionData) : OpenViduSession :=
  { id := data.id, data := data, is_valid := true }

/-- The recording JSON object (`GET recordings/{id}` body and the entries of
`GET recordings`): exactly the keys `_update_from_data` reads; the keys read
with `data.get(key, None)` are `Option`s. -/
structure RecordingData where
  id : String
  name : String
  outputMode : String
  hasAudio : Bool
  hasVideo : Bool
  resolution : Option String
  frameRate : Option Nat
  recordingLayout : Option String
  customLayout : Option String
  sessionId : String
  createdAt : Nat
  size : Nat
  duration : Nat
  url : String
  status : String
deriving DecidableEq, Repr, Inhabited

/-- `OpenViduRecording` (`openvidurecording.py`): the dataclass fields plus
the private `_last_fetch_result` snapshot used for change detection. -/
structure OpenViduRecording where
  id : String
  name : String
  output_mode : String
  has_audio : Bool
  has_video : Bool
  resolution : Option String
  frame_rate : Option Nat
  recording_layout : Option String
  custom_layout : Option String
  session_id : String
  created_at : Nat
  size : Nat
  duration : Nat
  url : String
  status : String
  is_valid : Bool
  last_fetch_result : RecordingData
deriving DecidableEq, Repr, Inhabited

/-- `OpenViduRecording._update_from_data`: sets every dataclass field from
the payload and (re)sets `is_valid` to `True`; does not touch
`_last_fetch_result`. -/
def OpenViduRecording._update_from_data (r : OpenViduRecording) (data : RecordingData) :
    OpenViduRecording :=
  { r with
    id := data.id
    name := data.name
    output_mode := data.outputMode
    has_audio := data.hasAudio
    has_video := data.hasVideo
    resolution := data.resolution
    frame_rate := data.frameRate
    recording_layout := data.recordingLayout
    custom_layout := data.customLayout
    session_id := data.sessionId
    created_at := data.createdAt
    size := data.size
    duration := data.duration
    url := data.url
    status := data.status
    is_valid := true }

/-- The recording object `OpenViduRecording.__init__` builds from a payload:
`_update_from_data(data)` on a blank object, then `_last_fetch_result = data`. -/
def OpenViduRecording.ofData (data : RecordingData) : OpenViduRecording :=
  { OpenViduRecording._update_from_data default data with last_fetch_result := data }

/-- `OpenViduRecording.__init__(session, data, verify_request_ssl)`: stores a
reference to the shared transport, overwrites its `verify` flag with the
`verify_request_ssl` argument (whose Python default is `True`), and fills the
fields from `data`.  Returns the new object and the updated shared transport. -/
def OpenViduRecording.init (session : Transport) (data : RecordingData)
    (verify_request_ssl : Bool) : OpenViduRecording × Transport :=
  (OpenViduRecording.ofData data, { session with verify := verify_request_ssl })

/-- `OpenViduRecording.fetch` given the response to `GET recordings/{id}`. -/
def OpenViduRecording.fetch (r : OpenViduRecording) (resp : Response RecordingData) :
    Step OpenViduRecording Bool :=
  if ¬ r.is_valid then
    ⟨.error .recordingDoesNotExist, r, false⟩
  else if resp.status = 404 then
    ⟨.error .recordingDoesNotExist, { r with is_valid := false }, true⟩
  else if resp.status = 400 then
    ⟨.error .sessionDoesNotExist, { r with is_valid := false }, true⟩
  else if errStatus resp.status then
    ⟨.error (.httpError resp.status), r, true⟩
  else
    let new_data := resp.body
    if new_data ≠ r.last_fetch_result then
      ⟨.ok true,
        { r._update_from_data new_data with last_fetch_result := new_data }, true⟩
    else
      ⟨.ok false, r, true⟩

/-- `OpenViduRecording.delete` given the response to `DELETE recordings/{id}`. -/
def OpenViduRecording.delete (r : OpenViduRecording) (resp : Response Unit) :
    Step OpenViduRecording Bool :=
  if ¬ r.is_valid then
    ⟨.error .recordingDoesNotExist, r, false⟩
  else if resp.status = 404 then
    ⟨.error .recordingDoesNotExist, { r with is_valid := false }, true⟩
  else if resp.status = 409 then
    ⟨.error .recordingNotStopped, r, true⟩
  else if resp.status = 501 then
    ⟨.error .recordingNotEnabled, { r with is_valid := false }, true⟩
  else if errStatus resp.status then
    ⟨.error (.httpError resp.status), r, true⟩
  else
    ⟨.ok true, { r with is_valid := false }, true⟩

/-- `OpenViduRecording.stop` given the response to `POST recordings/stop/{id}`. -/
def OpenViduRecording.stop (r : OpenViduRecording) (resp : Response Unit) :
    Step OpenViduRecording Bool :=
  if ¬ r.is_valid then
    ⟨.error .recordingDoesNotExist, r, false⟩
  else if resp.status = 404 then
    ⟨.error .recordingDoesNotExist, { r with is_valid := false }, true⟩
  else if resp.status = 406 then
    ⟨.error .recordingNotStarted, r, true⟩
  else if resp.status = 501 then
    ⟨.error .recordingNotEnabled, { r with is_valid := false }, true⟩
  else if errStatus resp.status then
    ⟨.error (.httpError resp.status), r, true⟩
  else
    ⟨.ok true, r, true⟩

/-- The subscriber payload keys read by `OpenViduSubscriber.__init__`. -/
structure SubscriberData where
  streamId : String
  createdAt : Nat
deriving DecidableEq, Repr, Inhabited

/-- `OpenViduSubscriber` (`openvidusubscriber.py`): the dataclass fields. -/
structure OpenViduSubscriber where
  session_id : String
  stream_id : String
  created_at : Nat
deriving DecidableEq, Repr

/-- `OpenViduSubscriber.__init__(session, session_id, data, verify_request_ssl)`:
stores the shared transport, overwrites its `verify` flag with
`verify_request_ssl` (Python default `True`), and fills the fields.  Returns
the new object and the updated shared transport. -/
def OpenViduSubscriber.init (session : Transport) (session_id : String)
    (data : SubscriberData) (verify_request_ssl : Bool) :
    OpenViduSubscriber × Transport :=
  ({ session_id := session_id, stream_id := data.streamId, created_at := data.createdAt },
    { session with verify := verify_request_ssl })

/-- `OpenVidu` (`openvidu.py`): the shared transport, the two id-keyed object
caches, and the two raw listing snapshots used for change detection.  The
snapshots are initialised to the empty *dict* `{}` in Python while a listing
payload is a *list*, so the pristine snapshot is `none` here: it compares
unequal to every listing. -/
structure OpenVidu where
  session : Transport
  openvidu_sessions : List (String × OpenViduSession)
  openvidu_recordings : List (String × OpenViduRecording)
  last_fetch_result : Option (List SessionData)
  last_fetch_result_recordings : Option (List RecordingData)
deriving DecidableEq, Repr

/-- `OpenVidu.__init__` without the optional eager initial fetch (which is
just `fetch()` / `fetch_recordings()` applied to the fresh state). -/
def OpenVidu.init (verify_request_ssl : Bool) : OpenVidu :=
  { session := { verify := verify_request_ssl }
    openvidu_sessions := []
    openvidu_recordings := []
    last_fetch_result := none
    last_fetch_result_recordings := none }

/-- The session-cache rebuild loop of `OpenVidu.fetch`: starting from the
fresh empty dict, insert a fresh `OpenViduSession` keyed by `session_data['id']`
for each entry of the new listing. -/
def rebuildSessions (new_data : List SessionData) : List (String × OpenViduSession) :=
  new_data.foldl
    (fun d session_data => dictInsert session_data.id (OpenViduSession.init session_data) d)
    []

/-- `OpenVidu.fetch` given the response to `GET sessions` (whose body is the
`'content'` list). -/
def OpenVidu.fetch (ov : OpenVidu) (resp : Response (List SessionData)) :
    Step OpenVidu Bool :=
  if errStatus resp.status then
    ⟨.error (.httpError resp.status), ov, true⟩
  else
    let new_data := resp.body
    let data_changed := some new_data ≠ ov.last_fetch_result
    let ov' := { ov with last_fetch_result := some new_data }
    if data_changed then
      ⟨.ok true, { ov' with openvidu_sessions := rebuildSessions new_data }, true⟩
    else
      ⟨.ok false, ov', true⟩

/-- `OpenVidu.get_session`: pure cache lookup, no request, no mutation. -/
def OpenVidu.get_session (ov : OpenVidu) (session_id : String) :
    Except OVError OpenViduSession :=
  match dictLookup session_id ov.openvidu_sessions with
  | none => .error .sessionDoesNotExist
  | some session =>
    if ¬ session.is_valid then .error .sessionDoesNotExist
    else .ok session

/-- `OpenVidu.create_session` given the response to `POST sessions` (the
request body is assembled from the keyword arguments and does not influence
the client-side state transition). -/
def OpenVidu.create_session (ov : OpenVidu) (resp : Response SessionData) :
    Step OpenVidu OpenViduSession :=
  if resp.status = 409 then
    ⟨.error .sessionExists, ov, true⟩
  else if resp.status = 400 then
    ⟨.error .valueError, ov, true⟩
  else if errStatus resp.status then
    ⟨.error (.httpError resp.status), ov, true⟩
  else
    let new_session := OpenViduSession.init resp.body
    ⟨.ok new_session,
      { ov with openvidu_sessions := dictInsert new_session.id new_session ov.openvidu_sessions },
      true⟩

/-- `session.is_valid = False` on the Session object returned by
`get_session(session_id)`: the cache holds the same object, so the cache
entry under that id is the one mutated. -/
def invalidateSession (d : List (String × OpenViduSession)) (session_id : String) :
    List (String × OpenViduSession) :=
  d.map (fun p => if p.1 = session_id then (p.1, { p.2 with is_valid := false }) else p)

/-- `OpenVidu.create_recording(session_id, ...)` given the response to
`POST recordings/start`.  `get_session` runs first (fail fast, no request);
on 404 the passed-in Session is invalidated; on success a fresh
`OpenViduRecording` is built from the body (with the constructor's default
`verify_request_ssl=True`) and cached under its id. -/
def OpenVidu.create_recording (ov : OpenVidu) (session_id : String)
    (resp : Response RecordingData) : Step OpenVidu OpenViduRecording :=
  match ov.get_session session_id with
  | .error e => ⟨.error e, ov, false⟩
  | .ok _session =>
    if resp.status = 404 then
      ⟨.error .sessionDoesNotExist,
        { ov with openvidu_sessions := invalidateSession ov.openvidu_sessions session_id },
        true⟩
    else if errStatus resp.status then
      ⟨.error (.httpError resp.status), ov, true⟩
    else
      let init_result := OpenViduRecording.init ov.session resp.body true
      let new_recording := init_result.1
      ⟨.ok new_recording,
        { ov with
          session := init_result.2
          openvidu_recordings :=
            dictInsert new_recording.id new_recording ov.openvidu_recordings },
        true⟩

/-- The recording-cache rebuild loop of `OpenVidu.fetch_recordings`: each
`OpenViduRecording(self._session, recording_data)` constructor call also
rewrites the shared transport's `verify` flag (default argument `True`), so
the loop threads the transport through. -/
def rebuildRecordings (new_data : List RecordingData) (session : Transport) :
    Transport × List (String × OpenViduRecording) :=
  new_data.foldl
    (fun acc recording_data =>
      let init_result := OpenViduRecording.init acc.1 recording_data true
      (init_result.2, dictInsert recording_data.id init_result.1 acc.2))
    (session, [])

/-- `OpenVidu.fetch_recordings` given the response to `GET recordings` (whose
body is the `'items'` list). -/
def OpenVidu.fetch_recordings (ov : OpenVidu) (resp : Response (List RecordingData)) :
    Step OpenVidu Bool :=
  if errStatus resp.status then
    ⟨.error (.httpError resp.status), ov, true⟩
  else
    let new_data := resp.body
    let data_changed := some new_data ≠ ov.last_fetch_result_recordings
    let ov' := { ov with last_fetch_result_recordings := some new_data }
    if data_changed then
      let rebuilt := rebuildRecordings new_data ov.session
      ⟨.ok true,
        { ov' with session := rebuilt.1, openvidu_recordings := rebuilt.2 }, true⟩
    else
      ⟨.ok false, ov', true⟩

/-- `OpenVidu.get_recording`: pure cache lookup, no request, no mutation. -/
def OpenVidu.get_recording (ov : OpenVidu) (recording_id : String) :
    Except OVError OpenViduRecording :=
  match dictLookup recording_id ov.openvidu_recordings with
  | none => .error .recordingDoesNotExist
  | some recording =>
    if ¬ recording.is_valid then .error .recordingDoesNotExist
    else .ok recording

/-! Helper lemmas about the dict model and the cache-rebuild folds. -/

theorem dictLookup_dictInsert {α : Type} (k k' : String) (v : α) (d : List (String × α)) :
    dictLookup k (dictInsert k' v d) = if k' = k then some v else dictLookup k d := by
  induction d with
  | nil => simp [dictInsert, dictLookup]
  | cons p rest ih =>
    obtain ⟨k'', v''⟩ := p
    simp only [dictInsert]
    by_cases h1 : k'' = k'
    · rw [if_pos h1]
      subst h1
      by_cases h2 : k'' = k
      · subst h2
        simp [dictLookup]
      · simp [dictLookup, h2]
    · rw [if_neg h1]
      simp only [dictLookup, ih]
      by_cases h2 : k'' = k
      · subst h2
        have h3 : ¬ k' = k'' := fun he => h1 he.symm
        simp [h3]
      · simp [h2]

theorem dictLookup_foldl_dictInsert {β α : Type} (key : β → String) (val : β → α)
    (l : List β) (d : List (String × α)) (k : String) (v : α)
    (h : dictLookup k (l.foldl (fun acc b => dictInsert (key b) (val b) acc) d) = some v) :
    (∃ b ∈ l, key b = k ∧ v = val b) ∨ dictLookup k d = some v := by
  induction l generalizing d with
  | nil => exact Or.inr h
  | cons b rest ih =>
    rcases ih (dictInsert (key b) (val b) d) h with hl | hd
    · obtain ⟨b', hb', hk, hv⟩ := hl
      exact Or.inl ⟨b', List.mem_cons_of_mem _ hb', hk, hv⟩
    · rw [dictLookup_dictInsert] at hd
      by_cases hk : key b = k
      · rw [if_pos hk] at hd
        exact Or.inl ⟨b, List.mem_cons_self _ _, hk, (Option.some_injective _ hd).symm⟩
      · rw [if_neg hk] at hd
        exact Or.inr hd

theorem rebuildSessions_lookup (new_data : List SessionData) (k : String)
    (s : OpenViduSession) (h : dictLookup k (rebuildSessions new_data) = some s) :
    ∃ sd ∈ new_data, sd.id = k ∧ s = OpenViduSession.init sd := by
  rcases dictLookup_foldl_dictInsert SessionData.id OpenViduSession.init new_data [] k s h with
    hl | hd
  · exact hl
  · simp [dictLookup] at hd

theorem rebuildRecordings_snd (new_data : List RecordingData) (t : Transport) :
    (rebuildRecordings new_data t).2 =
      new_data.foldl (fun acc rd => dictInsert rd.id (OpenViduRecording.ofData rd) acc) [] := by
  suffices h : ∀ (l : List RecordingData) (t' : Transport)
      (d : List (String × OpenViduRecording)),
      (l.foldl
        (fun acc recording_data =>
          let init_result := OpenViduRecording.init acc.1 recording_data true
          (init_result.2, dictInsert recording_data.id init_result.1 acc.2))
        (t', d)).2 =
      l.foldl (fun acc rd => dictInsert rd.id (OpenViduRecording.ofData rd) acc) d by
    exact h new_data t []
  intro l
  induction l with
  | nil => intro t' d; rfl
  | cons rd rest ih => intro t' d; exact ih _ _

theorem rebuildRecordings_lookup (new_data : List RecordingData) (t : Transport)
    (k : String) (r : OpenViduRecording)
    (h : dictLookup k (rebuildRecordings new_data t).2 = some r) :
    ∃ rd ∈ new_data, rd.id = k ∧ r = OpenViduRecording.ofData rd := by
  rw [rebuildRecordings_snd] at h
  rcases dictLookup_foldl_dictInsert RecordingData.id OpenViduRecording.ofData new_data [] k r h
    with hl | hd
  · exact hl
  · simp [dictLookup] at hd

theorem rebuildRecordings_fst_verify (new_data : List RecordingData) (t : Transport)
    (h : new_data ≠ []) : (rebuildRecordings new_data t).1.verify = true := by
  suffices haux : ∀ (l : List RecordingData) (t' : Transport)
      (d : List (String × OpenViduRecording)), t'.verify = true →
      (l.foldl
        (fun acc recording_data =>
          let init_result := OpenViduRecording.init acc.1 recording_data true
          (init_result.2, dictInsert recording_data.id init_result.1 acc.2))
        (t', d)).1.verify = true by
    cases new_data with
    | nil => exact absurd rfl h
    | cons rd rest => exact haux rest _ _ rfl
  intro l
  induction l with
  | nil => intro t' d ht; exact ht
  | cons rd rest ih => intro t' d ht; exact ih _ _ rfl

theorem dictLookup_invalidateSession (d : List (String × OpenViduSession)) (k : String) :
    dictLookup k (invalidateSession d k) =
      (dictLookup k d).map (fun s => { s with is_valid := false }) := by
  induction d with
  | nil => simp [invalidateSession, dictLookup]
  | cons p rest ih =>
    obtain ⟨k', s⟩ := p
    simp only [invalidateSession, List.map_cons]
    by_cases hk : k' = k
    · rw [if_pos hk]
      subst hk
      simp [dictLookup, ih, invalidateSession]
    · rw [if_neg hk]
      simp only [dictLookup, if_neg hk]
      exact ih

/-! Concrete sample states, used by the witness theorems. -/

/-- A sample recording payload. -/
def rdA : RecordingData :=
  { id := "R1", name := "rec", outputMode := "COMPOSED", hasAudio := true, hasVideo := true
    resolution := some "1280x720", frameRate := some 25, recordingLayout := some "BEST_FIT"
    customLayout := none, sessionId := "S1", createdAt := 1000, size := 42, duration := 10
    url := "u", status := "ready" }

/-- The same recording payload with a changed nested field. -/
def rdB : RecordingData := { rdA with status := "stopped" }

/-- A valid sample recording object. -/
def recA : OpenViduRecording := OpenViduRecording.ofData rdA

/-- An invalidated sample recording object. -/
def recInvalid : OpenViduRecording := { recA with is_valid := false }

/-- A sample session listing entry. -/
def sdA : SessionData := { id := "S1", rest := "x" }

/-- A valid sample session object. -/
def sessA : OpenViduSession := OpenViduSession.init sdA

/-- A sample server handle whose caches hold `sessA` and `recA`. -/
def ovA : OpenVidu :=
  { session := { verify := true }
    openvidu_sessions := [("S1", sessA)]
    openvidu_recordings := [("R1", recA)]
    last_fetch_result := some [sdA]
    last_fetch_result_recordings := some [rdA] }

/-- A successful `OpenVidu.fetch` whose payload equals the stored snapshot
returns false and is a no-op on the state. -/
theorem fetch_unchanged (ov : OpenVidu) (resp : Response (List SessionData))
    (h : ¬ errStatus resp.status) (hl : ov.last_fetch_result = some resp.body) :
    ov.fetch resp = ⟨.ok false, ov, true⟩ := by
  simp only [OpenVidu.fetch, if_neg h, hl]
  rw [if_neg (not_not_intro rfl)]
  rw [← hl]

/-! Claim theorems. -/

/-- Claim C1: once a Recording's `is_valid` flag is false, `fetch()`,
`delete()` and `stop()` all raise `OpenViduRecordingDoesNotExistsError`
without issuing any network request and leave the object untouched; in
particular no such call ever sets `is_valid` back to true. -/
theorem C1_recording_invalidation_monotone (r : OpenViduRecording)
    (resp : Response RecordingData) (respU : Response Unit)
    (h : r.is_valid = false) :
    r.fetch resp = ⟨.error .recordingDoesNotExist, r, false⟩ ∧
    r.delete respU = ⟨.error .recordingDoesNotExist, r, false⟩ ∧
    r.stop respU = ⟨.error .recordingDoesNotExist, r, false⟩ ∧
    (r.fetch resp).state.is_valid = false ∧
    (r.delete respU).state.is_valid = false ∧
    (r.stop respU).state.is_valid = false := by
  simp [OpenViduRecording.fetch, OpenViduRecording.delete, OpenViduRecording.stop, h]

/-- Witness for C1 at a concrete invalidated recording. -/
theorem C1_witness :
    recInvalid.is_valid = false ∧
    recInvalid.fetch ⟨200, rdA⟩ = ⟨.error .recordingDoesNotExist, recInvalid, false⟩ ∧
    recInvalid.delete ⟨200, ()⟩ = ⟨.error .recordingDoesNotExist, recInvalid, false⟩ ∧
    recInvalid.stop ⟨200, ()⟩ = ⟨.error .recordingDoesNotExist, recInvalid, false⟩ ∧
    (recInvalid.fetch ⟨200, rdA⟩).state.is_valid = false ∧
    (recInvalid.delete ⟨200, ()⟩).state.is_valid = false ∧
    (recInvalid.stop ⟨200, ()⟩).state.is_valid = false := by
  have h := C1_recording_invalidation_monotone recInvalid ⟨200, rdA⟩ ⟨200, ()⟩ (by decide)
  exact ⟨by decide, h.1, h.2.1, h.2.2.1, h.2.2.2.1, h.2.2.2.2.1, h.2.2.2.2.2⟩

/-- Claim C4: exact status-code mapping on a valid Recording: `delete()` with
409 raises RecordingNotStopped and stays valid, `delete()` with 404 raises
RecordingNotFound and invalidates, `stop()` with 406 raises
RecordingNotStarted and stays valid, and 501 on either operation invalidates
and raises RecordingNotEnabled. -/
theorem C4_recording_status_mapping (r : OpenViduRecording)
    (respD respS : Response Unit) (h : r.is_valid = true) :
    (respD.status = 409 →
      (r.delete respD).result = .error .recordingNotStopped ∧
      (r.delete respD).state.is_valid = true) ∧
    (respD.status = 404 →
      (r.delete respD).result = .error .recordingDoesNotExist ∧
      (r.delete respD).state.is_valid = false) ∧
    (respS.status = 406 →
      (r.stop respS).result = .error .recordingNotStarted ∧
      (r.stop respS).state.is_valid = true) ∧
    (respD.status = 501 →
      (r.delete respD).result = .error .recordingNotEnabled ∧
      (r.delete respD).state.is_valid = false) ∧
    (respS.status = 501 →
      (r.stop respS).result = .error .recordingNotEnabled ∧
      (r.stop respS).state.is_valid = false) := by
  refine ⟨?_, ?_, ?_, ?_, ?_⟩ <;> intro hs <;>
    simp [OpenViduRecording.delete, OpenViduRecording.stop, errStatus, h, hs]

/-- Witness for C4 at a concrete valid recording: 409 on delete and 406 on
stop leave it valid. -/
theorem C4_witness :
    recA.is_valid = true ∧
    ((recA.delete ⟨409, ()⟩).result = .error .recordingNotStopped ∧
      (recA.delete ⟨409, ()⟩).state.is_valid = true) ∧
    ((recA.stop ⟨406, ()⟩).result = .error .recordingNotStarted ∧
      (recA.stop ⟨406, ()⟩).state.is_valid = true) := by
  have h := C4_recording_status_mapping recA ⟨409, ()⟩ ⟨406, ()⟩ (by decide)
  exact ⟨by decide, h.1 rfl, h.2.2.1 rfl⟩

/-- Counterexample to C8 as stated: status 401 is a 400-class response, yet a
valid Recording's `fetch()` raises the generic HTTP error (not
SessionNotFound) and leaves `is_valid` true (not false). -/
theorem C8_counterexample :
    recA.is_valid = true ∧
    (recA.fetch ⟨401, rdA⟩).result = .error (.httpError 401) ∧
    (recA.fetch ⟨401, rdA⟩).state.is_valid = true :=
  ⟨rfl, rfl, rfl⟩

/-- Claim C8 (amended): on a valid Recording, `fetch()` with status 404
invalidates and raises RecordingNotFound; with status exactly 400 it
invalidates and raises SessionNotFound; any other unsuccessful status raises
the generic HTTP error and leaves the object unchanged; on success it returns
true exactly when the payload differs from the last snapshot, in which case
all fields are replaced together from the payload, and otherwise nothing
changes. -/
theorem C8_recording_fetch_mapping (r : OpenViduRecording)
    (resp : Response RecordingData) (h : r.is_valid = true) :
    (resp.status = 404 →
      (r.fetch resp).result = .error .recordingDoesNotExist ∧
      (r.fetch resp).state.is_valid = false) ∧
    (resp.status = 400 →
      (r.fetch resp).result = .error .sessionDoesNotExist ∧
      (r.fetch resp).state.is_valid = false) ∧
    (errStatus resp.status → resp.status ≠ 404 → resp.status ≠ 400 →
      (r.fetch resp).result = .error (.httpError resp.status) ∧
      (r.fetch resp).state = r) ∧
    (¬ errStatus resp.status →
      ((r.fetch resp).result = .ok true ↔ resp.body ≠ r.last_fetch_result) ∧
      (resp.body ≠ r.last_fetch_result →
        (r.fetch resp).state =
          { r._update_from_data resp.body with last_fetch_result := resp.body }) ∧
      (resp.body = r.last_fetch_result → (r.fetch resp).state = r)) := by
  refine ⟨?_, ?_, ?_, ?_⟩
  · intro hs
    simp [OpenViduRecording.fetch, h, hs]
  · intro hs
    simp [OpenViduRecording.fetch, h, hs]
  · intro he h4 h0
    simp [OpenViduRecording.fetch, h, h4, h0, he]
  · intro hn
    have h4 : resp.status ≠ 404 := fun e => hn (by rw [e]; decide)
    have h0 : resp.status ≠ 400 := fun e => hn (by rw [e]; decide)
    by_cases hc : resp.body = r.last_fetch_result <;>
      simp [OpenViduRecording.fetch, h, h4, h0, hn, hc]

/-- Witness for the amended C8: a successful fetch with a changed payload
returns true and replaces all fields together. -/
theorem C8_witness :
    recA.is_valid = true ∧ ¬ errStatus (200 : Nat) ∧
    rdB ≠ recA.last_fetch_result ∧
    (recA.fetch ⟨200, rdB⟩).result = .ok true ∧
    (recA.fetch ⟨200, rdB⟩).state =
      { recA._update_from_data rdB with last_fetch_result := rdB } := by
  have h := (C8_recording_fetch_mapping recA ⟨200, rdB⟩ (by decide)).2.2.2 (by decide)
  exact ⟨by decide, by decide, by decide, h.1.mpr (by decide), h.2.1 (by decide)⟩

/-- Claim C2: `OpenVidu.fetch` is idempotent: two consecutive successful
calls whose listing payloads are identical make the second call return false
and leave the whole handle state (session cache and every cached field)
unchanged. -/
theorem C2_fetch_idempotent (ov : OpenVidu)
    (resp1 resp2 : Response (List SessionData))
    (h1 : ¬ errStatus resp1.status) (h2 : ¬ errStatus resp2.status)
    (hb : resp1.body = resp2.body) :
    ((ov.fetch resp1).state.fetch resp2).result = .ok false ∧
    ((ov.fetch resp1).state.fetch resp2).state = (ov.fetch resp1).state := by
  have hs1 : (ov.fetch resp1).state.last_fetch_result = some resp1.body := by
    simp only [OpenVidu.fetch, if_neg h1]
    split <;> rfl
  have h := fetch_unchanged (ov.fetch resp1).state resp2 h2 (hs1.trans (by rw [hb]))
  rw [h]
  exact ⟨rfl, rfl⟩

/-- Witness for C2 at a concrete handle and payload. -/
theorem C2_witness :
    ¬ errStatus (200 : Nat) ∧
    (((OpenVidu.init true).fetch ⟨200, [sdA]⟩).state.fetch ⟨200, [sdA]⟩).result =
      .ok false ∧
    (((OpenVidu.init true).fetch ⟨200, [sdA]⟩).state.fetch ⟨200, [sdA]⟩).state =
      ((OpenVidu.init true).fetch ⟨200, [sdA]⟩).state := by
  have h := C2_fetch_idempotent (OpenVidu.init true) ⟨200, [sdA]⟩ ⟨200, [sdA]⟩
    (by decide) (by decide) rfl
  exact ⟨by decide, h.1, h.2⟩

/-- Claim C3: when the new listing payload differs from the previous
snapshot, `fetch()` (resp. `fetch_recordings()`) returns true and replaces
the entire session (resp. recording) cache with fresh objects built only
from the new payload, so every surviving cache entry comes from the new
payload. -/
theorem C3_change_detection (ov : OpenVidu)
    (resp : Response (List SessionData)) (rresp : Response (List RecordingData))
    (h : ¬ errStatus resp.status) (hr : ¬ errStatus rresp.status)
    (hc : some resp.body ≠ ov.last_fetch_result)
    (hcr : some rresp.body ≠ ov.last_fetch_result_recordings) :
    (ov.fetch resp).result = .ok true ∧
    (ov.fetch resp).state.openvidu_sessions = rebuildSessions resp.body ∧
    (∀ k s, dictLookup k (ov.fetch resp).state.openvidu_sessions = some s →
      ∃ sd ∈ resp.body, sd.id = k ∧ s = OpenViduSession.init sd) ∧
    (ov.fetch_recordings rresp).result = .ok true ∧
    (ov.fetch_recordings rresp).state.openvidu_recordings =
      (rebuildRecordings rresp.body ov.session).2 ∧
    (∀ k r, dictLookup k (ov.fetch_recordings rresp).state.openvidu_recordings = some r →
      ∃ rd ∈ rresp.body, rd.id = k ∧ r = OpenViduRecording.ofData rd) := by
  have e1 : ov.fetch resp =
      ⟨.ok true,
        { ov with
          last_fetch_result := some resp.body
          openvidu_sessions := rebuildSessions resp.body }, true⟩ := by
    simp only [OpenVidu.fetch, if_neg h]
    rw [if_pos hc]
  have e2 : ov.fetch_recordings rresp =
      ⟨.ok true,
        { ov with
          last_fetch_result_recordings := some rresp.body
          session := (rebuildRecordings rresp.body ov.session).1
          openvidu_recordings := (rebuildRecordings rresp.body ov.session).2 }, true⟩ := by
    simp only [OpenVidu.fetch_recordings, if_neg hr]
    rw [if_pos hcr]
  rw [e1, e2]
  refine ⟨rfl, rfl, ?_, rfl, rfl, ?_⟩
  · intro k s hs
    exact rebuildSessions_lookup resp.body k s hs
  · intro k r hrr
    exact rebuildRecordings_lookup rresp.body ov.session k r hrr

/-- Witness for C3 at a fresh handle whose pristine snapshot differs from
every listing. -/
theorem C3_witness :
    ¬ errStatus (200 : Nat) ∧
    some [sdA] ≠ (OpenVidu.init true).last_fetch_result ∧
    ((OpenVidu.init true).fetch ⟨200, [sdA]⟩).result = .ok true ∧
    ((OpenVidu.init true).fetch ⟨200, [sdA]⟩).state.openvidu_sessions =
      rebuildSessions [sdA] ∧
    ((OpenVidu.init true).fetch_recordings ⟨200, [rdA]⟩).result = .ok true := by
  have h := C3_change_detection (OpenVidu.init true) ⟨200, [sdA]⟩ ⟨200, [rdA]⟩
    (by decide) (by decide) (by decide) (by decide)
  exact ⟨by decide, by decide, h.1, h.2.1, h.2.2.2.1⟩

/-- Claim C5: `get_session(id)` raises `OpenViduSessionDoesNotExistsError`
exactly when the id is absent from the session cache or the cached session
is invalid, and otherwise returns the cached Session object. -/
theorem C5_get_session_spec (ov : OpenVidu) (session_id : String) :
    (ov.get_session session_id = .error .sessionDoesNotExist ↔
      dictLookup session_id ov.openvidu_sessions = none ∨
      ∃ s, dictLookup session_id ov.openvidu_sessions = some s ∧ s.is_valid = false) ∧
    ∀ s, dictLookup session_id ov.openvidu_sessions = some s → s.is_valid = true →
      ov.get_session session_id = .ok s := by
  constructor
  · unfold OpenVidu.get_session
    cases hl : dictLookup session_id ov.openvidu_sessions with
    | none => simp
    | some s =>
      cases hv : s.is_valid with
      | false => simp [hv]
      | true => simp [hv]
  · intro s hs hv
    unfold OpenVidu.get_session
    rw [hs]
    simp [hv]

/-- Witness for C5: the cached valid session is returned; an unknown id
raises. -/
theorem C5_witness :
    ovA.get_session "S1" = .ok sessA ∧
    ovA.get_session "S2" = .error .sessionDoesNotExist := by
  refine ⟨(C5_get_session_spec ovA "S1").2 sessA rfl rfl, ?_⟩
  exact (C5_get_session_spec ovA "S2").1.mpr (Or.inl rfl)

/-- Claim C6: `create_session` raises `OpenViduSessionExistsError` on 409,
`ValueError` on 400, a generic HTTP error on any other unsuccessful status,
and on success builds a Session directly from the response body (without any
fetch) and caches it under its id. -/
theorem C6_create_session_mapping (ov : OpenVidu) (resp : Response SessionData) :
    (resp.status = 409 → (ov.create_session resp).result = .error .sessionExists) ∧
    (resp.status = 400 → (ov.create_session resp).result = .error .valueError) ∧
    (errStatus resp.status → resp.status ≠ 409 → resp.status ≠ 400 →
      (ov.create_session resp).result = .error (.httpError resp.status)) ∧
    (¬ errStatus resp.status →
      (ov.create_session resp).result = .ok (OpenViduSession.init resp.body) ∧
      (ov.create_session resp).state.openvidu_sessions =
        dictInsert resp.body.id (OpenViduSession.init resp.body) ov.openvidu_sessions ∧
      (ov.create_session resp).state.last_fetch_result = ov.last_fetch_result) := by
  refine ⟨?_, ?_, ?_, ?_⟩
  · intro hs
    simp [OpenVidu.create_session, hs]
  · intro hs
    simp [OpenVidu.create_session, hs]
  · intro he h9 h0
    simp [OpenVidu.create_session, h9, h0, he]
  · intro hn
    have h9 : resp.status ≠ 409 := fun e => hn (by rw [e]; decide)
    have h0 : resp.status ≠ 400 := fun e => hn (by rw [e]; decide)
    simp [OpenVidu.create_session, h9, h0, hn, OpenViduSession.init]

/-- Witness for C6: a conflict status raises SessionAlreadyExists; a success
status caches the fresh session built from the body. -/
theorem C6_witness :
    (ovA.create_session ⟨409, sdA⟩).result = .error .sessionExists ∧
    ¬ errStatus (201 : Nat) ∧
    (ovA.create_session ⟨201, { id := "S2", rest := "y" }⟩).result =
      .ok (OpenViduSession.init { id := "S2", rest := "y" }) ∧
    (ovA.create_session ⟨201, { id := "S2", rest := "y" }⟩).state.openvidu_sessions =
      dictInsert "S2" (OpenViduSession.init { id := "S2", rest := "y" })
        ovA.openvidu_sessions := by
  have h1 := (C6_create_session_mapping ovA ⟨409, sdA⟩).1 rfl
  have h2 := (C6_create_session_mapping ovA
    ⟨201, { id := "S2", rest := "y" }⟩).2.2.2 (by decide)
  exact ⟨h1, by decide, h2.1, h2.2.1⟩

/-- If `get_session` raises, any cached session under that id is invalid. -/
theorem get_session_error_invalid (ov : OpenVidu) (session_id : String)
    (e : OVError) (h : ov.get_session session_id = .error e) :
    ∀ s, dictLookup session_id ov.openvidu_sessions = some s → s.is_valid = false := by
  intro s hsome
  cases hb : s.is_valid with
  | false => rfl
  | true =>
    exfalso
    unfold OpenVidu.get_session at h
    rw [hsome] at h
    simp [hb] at h

/-- If `get_recording` raises, any cached recording under that id is
invalid. -/
theorem get_recording_error_invalid (ov : OpenVidu) (recording_id : String)
    (e : OVError) (h : ov.get_recording recording_id = .error e) :
    ∀ r, dictLookup recording_id ov.openvidu_recordings = some r →
      r.is_valid = false := by
  intro r hsome
  cases hb : r.is_valid with
  | false => rfl
  | true =>
    exfalso
    unfold OpenVidu.get_recording at h
    rw [hsome] at h
    simp [hb] at h

/-- Claim C7: `create_recording` on a cached valid session: a 404 response
invalidates that Session object and raises SessionNotFound; a successful
response builds a Recording from the body and caches it under its id. -/
theorem C7_create_recording_mapping (ov : OpenVidu) (session_id : String)
    (resp : Response RecordingData) (s : OpenViduSession)
    (hs : dictLookup session_id ov.openvidu_sessions = some s)
    (hv : s.is_valid = true) :
    (resp.status = 404 →
      (ov.create_recording session_id resp).result = .error .sessionDoesNotExist ∧
      dictLookup session_id
          (ov.create_recording session_id resp).state.openvidu_sessions =
        some { s with is_valid := false }) ∧
    (¬ errStatus resp.status →
      (ov.create_recording session_id resp).result =
        .ok (OpenViduRecording.ofData resp.body) ∧
      dictLookup resp.body.id
          (ov.create_recording session_id resp).state.openvidu_recordings =
        some (OpenViduRecording.ofData resp.body)) := by
  have hget : ov.get_session session_id = .ok s := by
    unfold OpenVidu.get_session
    rw [hs]
    simp [hv]
  constructor
  · intro h4
    unfold OpenVidu.create_recording
    rw [hget]
    simp only [h4, if_pos rfl]
    refine ⟨rfl, ?_⟩
    show dictLookup session_id (invalidateSession ov.openvidu_sessions session_id) = _
    rw [dictLookup_invalidateSession, hs]
    rfl
  · intro hn
    have h4 : resp.status ≠ 404 := fun e => hn (by rw [e]; decide)
    unfold OpenVidu.create_recording
    rw [hget]
    simp only [h4, if_neg h4, if_neg hn]
    refine ⟨rfl, ?_⟩
    show dictLookup resp.body.id
        (dictInsert (OpenViduRecording.ofData resp.body).id
          (OpenViduRecording.ofData resp.body) ov.openvidu_recordings) = _
    have hid : (OpenViduRecording.ofData resp.body).id = resp.body.id := rfl
    rw [dictLookup_dictInsert, if_pos hid]

/-- Witness for C7: 404 invalidates the cached session; success caches the
new recording built from the body. -/
theorem C7_witness :
    (ovA.create_recording "S1" ⟨404, rdB⟩).result = .error .sessionDoesNotExist ∧
    dictLookup "S1" (ovA.create_recording "S1" ⟨404, rdB⟩).state.openvidu_sessions =
      some { sessA with is_valid := false } ∧
    (ovA.create_recording "S1" ⟨200, rdB⟩).result =
      .ok (OpenViduRecording.ofData rdB) ∧
    dictLookup "R1" (ovA.create_recording "S1" ⟨200, rdB⟩).state.openvidu_recordings =
      some (OpenViduRecording.ofData rdB) := by
  have h1 := (C7_create_recording_mapping ovA "S1" ⟨404, rdB⟩ sessA rfl rfl).1 rfl
  have h2 := (C7_create_recording_mapping ovA "S1" ⟨200, rdB⟩ sessA rfl rfl).2 (by decide)
  exact ⟨h1.1, h1.2, h2.1, h2.2⟩

/-- Claim C9: every in-repo operation that raises a NotFound-variant
exception leaves the corresponding local object's valid flag false: both
raising paths of `get_session` and `get_recording` (absent id, or entry
already invalid — the cache entry, when present, is invalid after the call),
the RecordingNotFound and SessionNotFound paths of the Recording operations,
and both SessionNotFound paths of `create_recording`. -/
theorem C9_notfound_invalidates (ov : OpenVidu) (session_id recording_id : String)
    (r : OpenViduRecording) (resp : Response RecordingData) (respU : Response Unit)
    (rresp : Response RecordingData) :
    (ov.get_session session_id = .error .sessionDoesNotExist →
      ∀ s, dictLookup session_id ov.openvidu_sessions = some s →
        s.is_valid = false) ∧
    (ov.get_recording recording_id = .error .recordingDoesNotExist →
      ∀ rec, dictLookup recording_id ov.openvidu_recordings = some rec →
        rec.is_valid = false) ∧
    ((r.fetch resp).result = .error .recordingDoesNotExist →
      (r.fetch resp).state.is_valid = false) ∧
    ((r.fetch resp).result = .error .sessionDoesNotExist →
      (r.fetch resp).state.is_valid = false) ∧
    ((r.delete respU).result = .error .recordingDoesNotExist →
      (r.delete respU).state.is_valid = false) ∧
    ((r.stop respU).result = .error .recordingDoesNotExist →
      (r.stop respU).state.is_valid = false) ∧
    ((ov.create_recording session_id rresp).result = .error .sessionDoesNotExist →
      ∀ s, dictLookup session_id
          (ov.create_recording session_id rresp).state.openvidu_sessions = some s →
        s.is_valid = false) := by
  refine ⟨?_, ?_, ?_, ?_, ?_, ?_, ?_⟩
  · intro he
    exact get_session_error_invalid ov session_id _ he
  · intro he
    exact get_recording_error_invalid ov recording_id _ he
  · intro he
    simp only [OpenViduRecording.fetch] at he ⊢
    split_ifs at he ⊢ <;> simp_all
  · intro he
    simp only [OpenViduRecording.fetch] at he ⊢
    split_ifs at he ⊢ <;> simp_all
  · intro he
    simp only [OpenViduRecording.delete] at he ⊢
    split_ifs at he ⊢ <;> simp_all
  · intro he
    simp only [OpenViduRecording.stop] at he ⊢
    split_ifs at he ⊢ <;> simp_all
  · intro he
    unfold OpenVidu.create_recording at he ⊢
    cases hget : ov.get_session session_id with
    | error e =>
      exact get_session_error_invalid ov session_id e hget
    | ok s0 =>
      dsimp only at he ⊢
      split_ifs at he ⊢ with h1 h2
      · intro s hsome
        dsimp only at hsome
        rw [dictLookup_invalidateSession] at hsome
        cases hl : dictLookup session_id ov.openvidu_sessions with
        | none => rw [hl] at hsome; simp at hsome
        | some s1 =>
          rw [hl] at hsome
          simp only [Option.map_some', Option.some.injEq] at hsome
          rw [← hsome]
      · rw [hget] at he
        simp at he
      · rw [hget] at he
        simp at he

/-- Witness for C9: a NotFound raised by the fail-fast path and by the
delete path both leave the recording invalid. -/
theorem C9_witness :
    (recInvalid.fetch ⟨200, rdA⟩).state.is_valid = false ∧
    (recInvalid.delete ⟨200, ()⟩).state.is_valid = false := by
  have h := C9_notfound_invalidates ovA "S1" "R1" recInvalid ⟨200, rdA⟩ ⟨200, ()⟩
    ⟨404, rdA⟩
  exact ⟨h.2.2.1 rfl, h.2.2.2.2.1 rfl⟩

/-- A sample handle configured with TLS verification disabled. -/
def ovF : OpenVidu := { ovA with session := { verify := false } }

/-- Claim C10: the Recording and Subscriber constructors overwrite the shared
transport's TLS-verification flag with their `verify_request_ssl` argument,
and every in-repo call site applies the Python default `True` (modelled here
by passing `true` explicitly); hence a handle configured with
`verify_request_ssl=False` has verification silently re-enabled by any
operation that constructs a child Recording — `create_recording` on success,
or `fetch_recordings` rebuilding a non-empty cache. -/
theorem C10_ssl_verify_overwritten (t : Transport) (data : RecordingData)
    (stream_session_id : String) (sdata : SubscriberData) (ov : OpenVidu)
    (session_id : String) (resp : Response RecordingData)
    (rresp : Response (List RecordingData)) (s : OpenViduSession)
    (hs : dictLookup session_id ov.openvidu_sessions = some s)
    (hv : s.is_valid = true) (hn : ¬ errStatus resp.status)
    (hrn : ¬ errStatus rresp.status)
    (hch : some rresp.body ≠ ov.last_fetch_result_recordings)
    (hne : rresp.body ≠ []) :
    (OpenViduRecording.init t data true).2.verify = true ∧
    (OpenViduSubscriber.init t stream_session_id sdata true).2.verify = true ∧
    (ov.create_recording session_id resp).state.session.verify = true ∧
    (ov.fetch_recordings rresp).state.session.verify = true := by
  have hget : ov.get_session session_id = .ok s := by
    unfold OpenVidu.get_session
    rw [hs]
    simp [hv]
  refine ⟨rfl, rfl, ?_, ?_⟩
  · have h4 : resp.status ≠ 404 := fun e => hn (by rw [e]; decide)
    unfold OpenVidu.create_recording
    rw [hget]
    simp only [if_neg h4, if_neg hn]
    rfl
  · simp only [OpenVidu.fetch_recordings, if_neg hrn]
    rw [if_pos hch]
    exact rebuildRecordings_fst_verify rresp.body ov.session hne

/-- Witness for C10 at a handle configured with verification off: both
constructors and both handle-level operations force the flag back to true. -/
theorem C10_witness :
    ovF.session.verify = false ∧
    (OpenViduRecording.init ⟨false⟩ rdA true).2.verify = true ∧
    (OpenViduSubscriber.init ⟨false⟩ "S1" ⟨"st", 5⟩ true).2.verify = true ∧
    (ovF.create_recording "S1" ⟨200, rdB⟩).state.session.verify = true ∧
    (ovF.fetch_recordings ⟨200, [rdB]⟩).state.session.verify = true := by
  have h := C10_ssl_verify_overwritten ⟨false⟩ rdA "S1" ⟨"st", 5⟩ ovF "S1"
    ⟨200, rdB⟩ ⟨200, [rdB]⟩ sessA rfl rfl (by decide) (by decide) (by decide)
    (by decide)
  exact ⟨by decide, h.1, h.2.1, h.2.2.1, h.2.2.2⟩

end PyOpenVidu
